import Mathlib

/-!
Shallow embedding of `src/windows-client/clipboard_capture.py`
(Windows clipboard capture client of the QA-tts-web repository).

The embedding covers the resilience and lifecycle core:
`DatabaseConnector` (ordered-fallback `connect`, `reconnect_with_backoff`,
`insert_question`, `close`), `ClipboardCapture.get_clipboard_text`,
`ClipboardService` (`_on_hotkey_pressed`, `_insert_question_with_retry`,
`stop`) and `ServiceGuardian.run`.

External effects are made explicit:
- the outcome of each attempted psycopg2 connection / probe / INSERT is an
  input drawn from an environment value;
- connection handles get ghost identities (`Nat`, allocated by a counter) so
  that resource claims about opened / closed / dropped connections can be
  stated; the ghost fields `openedNotClosed` and `discarded` record which
  handles were opened and never passed to `close()`, and which handles the
  code dropped (overwrote or set to `None`) without closing;
- `time.sleep` calls are recorded as a list of slept delays;
- logging is elided.
-/

/-- Outcome of one connection attempt to a single endpoint
(`psycopg2.connect(**params)` followed by the `SELECT 1` probe,
`clipboard_capture.py` lines 179-195). -/
inductive ConnectAttemptResult
  | connError
  | probeError
  | ok
  deriving DecidableEq

/-- Outcome of the `INSERT ... RETURNING id` statement when a connection is
present (`clipboard_capture.py` lines 219-234): either the generated id is
returned, or `psycopg2.Error` is raised. -/
inductive InsertOutcome
  | success (id : Int)
  | dbError
  deriving DecidableEq

/-- State of a `DatabaseConnector` instance.  `connection` is
`self.connection` (a ghost handle id instead of an opaque psycopg2 object).
`nextId`, `openedNotClosed` and `discarded` are ghost instrumentation:
`nextId` allocates fresh handle ids, `openedNotClosed` holds every handle
opened by the connector on which `close()` was never called, `discarded`
holds every handle the code dropped without closing (overwritten by a new
`psycopg2.connect` result, or set to `None` in the `insert_question` error
branch). -/
structure DBState where
  connection : Option Nat
  nextId : Nat
  openedNotClosed : Finset Nat
  discarded : Finset Nat
  deriving DecidableEq

/-- `DatabaseConnector.__init__`: `self.connection = None` (ghost ledgers
empty, first ghost handle id 0). -/
def dbInit : DBState :=
  { connection := none, nextId := 0, openedNotClosed := ∅, discarded := ∅ }

namespace DatabaseConnector

/-- `self.retry_delay = 1` (line 152). -/
def retry_delay : Nat := 1

/-- `self.max_retry_delay = 30` (line 153). -/
def max_retry_delay : Nat := 30

/-- `self.max_retries = 5` (line 154). -/
def max_retries : Nat := 5

/-- `self.connection = psycopg2.connect(**params)` (line 181): a fresh handle
is opened and adopted; any previously tracked handle is overwritten without
being closed (ghost: it moves to `discarded`). -/
def openStep (s : DBState) : DBState :=
  { connection := some s.nextId
    nextId := s.nextId + 1
    openedNotClosed := insert s.nextId s.openedNotClosed
    discarded :=
      match s.connection with
      | some c => insert c s.discarded
      | none => s.discarded }

/-- One iteration of the `for attempt, params in enumerate(...)` loop of
`DatabaseConnector.connect` (lines 178-195): try
`psycopg2.connect` and the `SELECT 1` probe; on `psycopg2.Error`, close
`self.connection` if it is set and reset it to `None`. -/
def connectAttempt (r : ConnectAttemptResult) (s : DBState) : Bool × DBState :=
  match r with
  | .ok => (true, openStep s)
  | .probeError =>
      let s1 := openStep s
      (false, { s1 with connection := none
                        openedNotClosed := s1.openedNotClosed.erase s.nextId })
  | .connError =>
      match s.connection with
      | some c =>
          (false, { s with connection := none
                           openedNotClosed := s.openedNotClosed.erase c })
      | none => (false, s)

/-- `DatabaseConnector.connect` (lines 176-198): iterate the ordered
endpoint list once; return `True` at the first endpoint whose connect and
probe both succeed, `False` after the list is exhausted.  The `Nat`
component counts how many endpoints were attempted (ghost). -/
def connect : List ConnectAttemptResult → DBState → Bool × DBState × Nat
  | [], s => (false, s, 0)
  | r :: env, s =>
      match connectAttempt r s with
      | (true, s1) => (true, s1, 1)
      | (false, s1) =>
          let (b, s2, n) := connect env s1
          (b, s2, n + 1)

/-- The body of `for retry in range(self.max_retries)` in
`reconnect_with_backoff` (lines 202-208), with the remaining iteration
count `k` and the current 0-indexed retry number `r` explicit.  The
`List Nat` component records the delays passed to `time.sleep`, in order. -/
def reconnectFrom (envs : Nat → List ConnectAttemptResult) :
    Nat → Nat → DBState → Bool × DBState × List Nat
  | 0, _, s => (false, s, [])
  | k + 1, r, s =>
      let delay := min (retry_delay * 2 ^ r) max_retry_delay
      match connect (envs r) s with
      | (true, s1, _) => (true, s1, [delay])
      | (false, s1, _) =>
          let (b, s2, ds) := reconnectFrom envs k (r + 1) s1
          (b, s2, delay :: ds)

/-- `DatabaseConnector.reconnect_with_backoff` (lines 200-211). -/
def reconnect_with_backoff (envs : Nat → List ConnectAttemptResult)
    (s : DBState) : Bool × DBState × List Nat :=
  reconnectFrom envs max_retries 0 s

/-- `DatabaseConnector.insert_question` (lines 213-234): return `None` when
no connection is present; otherwise run the INSERT once; on
`psycopg2.Error`, set `self.connection = None` (the handle is dropped, not
closed — ghost: it moves to `discarded`).  The `Nat` component counts the
store-level INSERT attempts performed by this one call (ghost). -/
def insert_question (outcome : InsertOutcome) (s : DBState) :
    Option Int × DBState × Nat :=
  match s.connection with
  | none => (none, s, 0)
  | some c =>
      match outcome with
      | .success i => (some i, s, 1)
      | .dbError =>
          (none, { s with connection := none, discarded := insert c s.discarded }, 1)

/-- `DatabaseConnector.close` (lines 236-241): close the connection if one
is present and set it to `None`. -/
def close (s : DBState) : DBState :=
  match s.connection with
  | none => s
  | some c =>
      { s with connection := none, openedNotClosed := s.openedNotClosed.erase c }

end DatabaseConnector

/-- The statistics dictionary `self.stats` of `ClipboardService.__init__`
(lines 270-276).  `start_time` is an abstract timestamp. -/
structure ServiceStats where
  captures : Nat
  successful_inserts : Nat
  failed_inserts : Nat
  start_time : Option Nat
  restart_count : Nat
  deriving DecidableEq

/-- The fresh stats of `ClipboardService.__init__`: every counter 0,
`start_time` unset (lines 270-276). -/
def freshStats : ServiceStats :=
  { captures := 0, successful_inserts := 0, failed_inserts := 0
    start_time := none, restart_count := 0 }

/-- State of a `ClipboardService` instance (lines 265-276), plus a ghost
flag recording whether hotkeys are currently registered with the external
keyboard facility. -/
structure SvcState where
  db : DBState
  is_running : Bool
  should_restart : Bool
  stats : ServiceStats
  hotkeysRegistered : Bool
  deriving DecidableEq

/-- `ClipboardService.__init__` (lines 265-276): fresh connector, not
running, `should_restart = True`, fresh stats. -/
def svcInit : SvcState :=
  { db := dbInit, is_running := false, should_restart := true
    stats := freshStats, hotkeysRegistered := false }

/-- Python `str.strip()`: drop leading and trailing whitespace.  Modelled
by structural recursion over the character list so that concrete
evaluation is kernel-reducible. -/
def pyStrip (t : String) : String :=
  ⟨((t.data.dropWhile Char.isWhitespace).reverse.dropWhile
      Char.isWhitespace).reverse⟩

/-- `ClipboardCapture.get_clipboard_text` (lines 247-259): the input is the
result of `pyperclip.paste()` (`none` models an exception raised by the
read, which is caught).  Non-empty text with non-empty strip is returned
stripped; everything else yields the empty string. -/
def get_clipboard_text (paste : Option String) : String :=
  match paste with
  | none => ""
  | some text => if text ≠ "" ∧ pyStrip text ≠ "" then pyStrip text else ""

/-- Python truthiness of the `question_id` value tested by
`if question_id:` in `_insert_question_with_retry` (lines 340, 348):
`None` and `0` are falsy, every other integer is truthy. -/
def intTruthy : Option Int → Bool
  | none => false
  | some i => i ≠ 0

/-- The external outcomes consumed by one run of
`_insert_question_with_retry`: the first INSERT outcome, the per-retry
connect environments used by `reconnect_with_backoff`, and the retried
INSERT outcome. -/
structure PipelineEnv where
  firstInsert : InsertOutcome
  reconnectEnvs : Nat → List ConnectAttemptResult
  secondInsert : InsertOutcome

namespace ClipboardService

/-- `ClipboardService._insert_question_with_retry` (lines 336-356).  The
`Nat` component is the ghost count of store-level INSERT attempts made. -/
def insert_question_with_retry (env : PipelineEnv) (question : String)
    (s : SvcState) : SvcState × Nat :=
  let (question_id, db1, a1) := DatabaseConnector.insert_question env.firstInsert s.db
  if intTruthy question_id then
    ({ s with db := db1
              stats := { s.stats with
                successful_inserts := s.stats.successful_inserts + 1 } }, a1)
  else
    let (ok, db2, _) := DatabaseConnector.reconnect_with_backoff env.reconnectEnvs db1
    if ok then
      let (qid2, db3, a2) := DatabaseConnector.insert_question env.secondInsert db2
      if intTruthy qid2 then
        ({ s with db := db3
                  stats := { s.stats with
                    successful_inserts := s.stats.successful_inserts + 1 } }, a1 + a2)
      else
        ({ s with db := db3
                  stats := { s.stats with
                    failed_inserts := s.stats.failed_inserts + 1 } }, a1 + a2)
    else
      ({ s with db := db2
                stats := { s.stats with
                  failed_inserts := s.stats.failed_inserts + 1 } }, a1)

end ClipboardService

namespace ClipboardService

/-- `ClipboardService._on_hotkey_pressed` (lines 308-325): return unchanged
if the service is not running; read the clipboard; return unchanged if the
text is empty; otherwise increment `captures` and run
`_insert_question_with_retry`.  The `Nat` component is the ghost count of
store-level INSERT attempts made while handling this trigger. -/
def on_hotkey_pressed (paste : Option String) (env : PipelineEnv)
    (s : SvcState) : SvcState × Nat :=
  if s.is_running = false then (s, 0)
  else
    let text := get_clipboard_text paste
    if text = "" then (s, 0)
    else
      let s1 := { s with stats := { s.stats with captures := s.stats.captures + 1 } }
      insert_question_with_retry env text s1

/-- `ClipboardService.stop` (lines 358-387): set `is_running = False`; on
`shutdown`, set `should_restart = False`; unregister the hotkeys; close the
connector; print the final statistics only when `shutdown` is set and
`self.stats['start_time']` is truthy.  The `Bool` component records whether
the final `ServiceStats` were emitted. -/
def stop (shutdown : Bool) (s : SvcState) : SvcState × Bool :=
  let s1 := { s with is_running := false }
  let s2 := if shutdown then { s1 with should_restart := false } else s1
  let s3 := { s2 with hotkeysRegistered := false }
  let s4 := { s3 with db := DatabaseConnector.close s3.db }
  (s4, shutdown && s4.stats.start_time.isSome)

end ClipboardService

/-- How one created service instance ran, as observed by the guardian loop
(`ServiceGuardian.run`, lines 428-480): `start()` returned `False`; or the
service started and later died abnormally (with `should_restart` still
`True` — normal-return death and the caught-exception path both take the
restart branch); or the stop hotkey fired, so `stop(shutdown=True)` ran and
the guardian's `should_run` was cleared. -/
inductive ServiceRun
  | startFail
  | abnormal
  | graceful
  deriving DecidableEq

/-- State of the `ServiceGuardian` (lines 416-420), with the stats of the
most recently created `ClipboardService` instance.  `restart_delay` is a
rational because the 1.5 multiplier leaves the integers. -/
structure GuardianState where
  restart_delay : ℚ
  should_run : Bool
  stats : ServiceStats
  deriving DecidableEq

/-- `self.max_restart_delay = 60` (line 420). -/
def max_restart_delay : ℚ := 60

/-- `self.restart_delay = min(self.restart_delay * 1.5, self.max_restart_delay)`
(lines 456, 478). -/
def growRestartDelay (d : ℚ) : ℚ := min (d * 1.5) max_restart_delay

/-- `ServiceGuardian.__init__` (lines 416-420): `restart_delay = 5`,
`should_run = True` (no service created yet; placeholder fresh stats). -/
def guardianInit : GuardianState :=
  { restart_delay := 5, should_run := true, stats := freshStats }

/-- One iteration of the `while self.should_run` loop of
`ServiceGuardian.run` (lines 428-480): create a fresh `ClipboardService`
(fresh stats, `restart_count` included — line 430 with lines 270-276); if
`start()` succeeded, reset `restart_delay` to 5 (line 437); on the restart
branch increment the dead instance's `restart_count`, sleep the current
`restart_delay` and grow it (lines 450-456); on graceful stop clear
`should_run` and break.  The `List ℚ` component records the delays slept
this iteration. -/
def guardianIter (o : ServiceRun) (g : GuardianState) : GuardianState × List ℚ :=
  let stats0 := freshStats
  match o with
  | .startFail =>
      ({ restart_delay := growRestartDelay g.restart_delay
         should_run := g.should_run
         stats := { stats0 with restart_count := stats0.restart_count + 1 } },
       [g.restart_delay])
  | .abnormal =>
      let d1 : ℚ := 5
      ({ restart_delay := growRestartDelay d1
         should_run := g.should_run
         stats := { stats0 with restart_count := stats0.restart_count + 1 } },
       [d1])
  | .graceful =>
      ({ restart_delay := 5, should_run := false, stats := stats0 }, [])

/-- `ServiceGuardian.run` driven by a script of service-run outcomes: loop
while `should_run` holds and outcomes remain, collecting the slept
delays. -/
def guardianRun : List ServiceRun → GuardianState → GuardianState × List ℚ
  | [], g => (g, [])
  | o :: os, g =>
      if g.should_run then
        let (g1, ds) := guardianIter o g
        let (g2, ds2) := guardianRun os g1
        (g2, ds ++ ds2)
      else (g, [])

/-- One observable operation on a `DatabaseConnector`, for stating resource
invariants over arbitrary call sequences. -/
inductive DBOp
  | connectOp (env : List ConnectAttemptResult)
  | insertOp (outcome : InsertOutcome)
  | closeOp

/-- Run one connector operation. -/
def runOp : DBOp → DBState → DBState
  | .connectOp env, s => (DatabaseConnector.connect env s).2.1
  | .insertOp o, s => (DatabaseConnector.insert_question o s).2.1
  | .closeOp, s => DatabaseConnector.close s

/-- Run a sequence of connector operations from a state. -/
def runOps : List DBOp → DBState → DBState
  | [], s => s
  | op :: ops, s => runOps ops (runOp op s)

/-- A single endpoint attempt succeeds exactly when both the connect and the
probe succeed. -/
lemma connectAttempt_true_iff (r : ConnectAttemptResult) (s : DBState) :
    (DatabaseConnector.connectAttempt r s).1 = true ↔ r = ConnectAttemptResult.ok := by
  cases r <;> cases hc : s.connection <;>
    simp [DatabaseConnector.connectAttempt, DatabaseConnector.openStep, hc]

/-- After a failed endpoint attempt, `self.connection` is `None`. -/
lemma connectAttempt_fail_conn (r : ConnectAttemptResult) (s : DBState)
    (h : (DatabaseConnector.connectAttempt r s).1 = false) :
    (DatabaseConnector.connectAttempt r s).2.connection = none := by
  cases r <;> cases hc : s.connection <;>
    simp [DatabaseConnector.connectAttempt, DatabaseConnector.openStep, hc] at h ⊢

/-- A failed endpoint attempt leaves no new open handle behind: every handle
still open after the attempt was already open before it (the partially
opened handle of a failed probe is closed before the loop moves on). -/
lemma connectAttempt_fail_subset (r : ConnectAttemptResult) (s : DBState)
    (h : (DatabaseConnector.connectAttempt r s).1 = false) :
    (DatabaseConnector.connectAttempt r s).2.openedNotClosed ⊆ s.openedNotClosed := by
  cases r with
  | ok => simp [DatabaseConnector.connectAttempt, DatabaseConnector.openStep] at h
  | probeError =>
      intro x hx
      simp [DatabaseConnector.connectAttempt, DatabaseConnector.openStep,
        Finset.mem_erase, Finset.mem_insert] at hx
      tauto
  | connError =>
      cases hc : s.connection with
      | none => simp [DatabaseConnector.connectAttempt, hc]
      | some c =>
          simp only [DatabaseConnector.connectAttempt, hc]
          exact Finset.erase_subset c s.openedNotClosed

/-- Unfolding equation for `connect` on a successful head attempt. -/
lemma connect_cons_of_true (r : ConnectAttemptResult) (rest : List ConnectAttemptResult)
    (s s1 : DBState) (h : DatabaseConnector.connectAttempt r s = (true, s1)) :
    DatabaseConnector.connect (r :: rest) s = (true, s1, 1) := by
  simp only [DatabaseConnector.connect]
  rw [h]

/-- Unfolding equation for `connect` on a failed head attempt. -/
lemma connect_cons_of_false (r : ConnectAttemptResult) (rest : List ConnectAttemptResult)
    (s s1 : DBState) (h : DatabaseConnector.connectAttempt r s = (false, s1)) :
    DatabaseConnector.connect (r :: rest) s =
      ((DatabaseConnector.connect rest s1).1,
       (DatabaseConnector.connect rest s1).2.1,
       (DatabaseConnector.connect rest s1).2.2 + 1) := by
  simp only [DatabaseConnector.connect]
  rw [h]

/-- `connect` succeeds exactly when some endpoint in the list fully
succeeds (connect plus probe), regardless of the starting state. -/
lemma connect_fst_iff (env : List ConnectAttemptResult) : ∀ s : DBState,
    (DatabaseConnector.connect env s).1 = true ↔ ConnectAttemptResult.ok ∈ env := by
  induction env with
  | nil => intro s; simp [DatabaseConnector.connect]
  | cons r rest ih =>
      intro s
      rcases ha : DatabaseConnector.connectAttempt r s with ⟨b, s1⟩
      have hiff := connectAttempt_true_iff r s
      rw [ha] at hiff
      cases b with
      | true =>
          have hr : r = ConnectAttemptResult.ok := by simpa using hiff
          rw [connect_cons_of_true r rest s s1 ha]
          simp [hr]
      | false =>
          have hr : r ≠ ConnectAttemptResult.ok := by simpa using hiff
          rw [connect_cons_of_false r rest s s1 ha]
          simp only [List.mem_cons]
          constructor
          · intro hx; exact Or.inr ((ih s1).mp hx)
          · rintro (hx | hx)
            · exact absurd hx.symm hr
            · exact (ih s1).mpr hx

/-- When `connect` fails, it attempted every endpoint, and (when the list is
non-empty) no established connection remains. -/
lemma connect_false_state (env : List ConnectAttemptResult) : ∀ s : DBState,
    (DatabaseConnector.connect env s).1 = false →
      (DatabaseConnector.connect env s).2.2 = env.length ∧
      (env = [] → (DatabaseConnector.connect env s).2.1 = s) ∧
      (env ≠ [] → (DatabaseConnector.connect env s).2.1.connection = none) := by
  induction env with
  | nil => intro s _; simp [DatabaseConnector.connect]
  | cons r rest ih =>
      intro s h
      rcases ha : DatabaseConnector.connectAttempt r s with ⟨b, s1⟩
      cases b with
      | true => rw [connect_cons_of_true r rest s s1 ha] at h; simp at h
      | false =>
          rw [connect_cons_of_false r rest s s1 ha] at h ⊢
          simp only at h
          have hs1 : s1.connection = none := by
            have h0 := connectAttempt_fail_conn r s (by rw [ha])
            rwa [ha] at h0
          cases rest with
          | nil =>
              refine ⟨by simp [DatabaseConnector.connect], by simp, fun _ => ?_⟩
              simpa [DatabaseConnector.connect] using hs1
          | cons r2 rest2 =>
              have ih2 := ih s1 h
              exact ⟨by simp [ih2.1], by simp, fun _ => ih2.2.2 (by simp)⟩

/-- When `connect` succeeds, the attempt count points at the first fully
successful endpoint, and the adopted connection is the handle opened at
that endpoint (the freshest handle). -/
lemma connect_true_state (env : List ConnectAttemptResult) : ∀ s : DBState,
    (DatabaseConnector.connect env s).1 = true →
      1 ≤ (DatabaseConnector.connect env s).2.2 ∧
      (DatabaseConnector.connect env s).2.2 ≤ env.length ∧
      env.getD ((DatabaseConnector.connect env s).2.2 - 1) ConnectAttemptResult.connError
        = ConnectAttemptResult.ok ∧
      (∀ j, j < (DatabaseConnector.connect env s).2.2 - 1 →
        env.getD j ConnectAttemptResult.connError ≠ ConnectAttemptResult.ok) ∧
      (DatabaseConnector.connect env s).2.1.connection
        = some ((DatabaseConnector.connect env s).2.1.nextId - 1) := by
  induction env with
  | nil => intro s h; simp [DatabaseConnector.connect] at h
  | cons r rest ih =>
      intro s h
      rcases ha : DatabaseConnector.connectAttempt r s with ⟨b, s1⟩
      have hiff := connectAttempt_true_iff r s
      rw [ha] at hiff
      cases b with
      | true =>
          have hr : r = ConnectAttemptResult.ok := by simpa using hiff
          subst hr
          have h0 : DatabaseConnector.connectAttempt ConnectAttemptResult.ok s
              = (true, DatabaseConnector.openStep s) := rfl
          rw [h0] at ha
          injection ha with ha1 ha2
          rw [connect_cons_of_true ConnectAttemptResult.ok rest s s1 (by rw [h0, ha2])]
          refine ⟨by simp, by simp, by simp, by simp, ?_⟩
          rw [← ha2]
          simp [DatabaseConnector.openStep]
      | false =>
          have hr : r ≠ ConnectAttemptResult.ok := by simpa using hiff
          rw [connect_cons_of_false r rest s s1 ha] at h ⊢
          dsimp only at h ⊢
          obtain ⟨h1, h2, h3, h4, h5⟩ := ih s1 h
          refine ⟨by omega, by simp; omega, ?_, ?_, h5⟩
          · have heq : (DatabaseConnector.connect rest s1).2.2 + 1 - 1
                = ((DatabaseConnector.connect rest s1).2.2 - 1) + 1 := by omega
            simp only [heq, List.getD_cons_succ]
            exact h3
          · intro j hj
            cases j with
            | zero => simpa using hr
            | succ j2 =>
                simp only [List.getD_cons_succ]
                exact h4 j2 (by omega)

/-- Unfolding equation for `reconnectFrom` on a successful retry. -/
lemma reconnectFrom_succ_of_true (envs : Nat → List ConnectAttemptResult)
    (k r : Nat) (s s1 : DBState) (m : Nat)
    (h : DatabaseConnector.connect (envs r) s = (true, s1, m)) :
    DatabaseConnector.reconnectFrom envs (k + 1) r s =
      (true, s1,
       [min (DatabaseConnector.retry_delay * 2 ^ r) DatabaseConnector.max_retry_delay]) := by
  simp only [DatabaseConnector.reconnectFrom]
  rw [h]

/-- Unfolding equation for `reconnectFrom` on a failed retry. -/
lemma reconnectFrom_succ_of_false (envs : Nat → List ConnectAttemptResult)
    (k r : Nat) (s s1 : DBState) (m : Nat)
    (h : DatabaseConnector.connect (envs r) s = (false, s1, m)) :
    DatabaseConnector.reconnectFrom envs (k + 1) r s =
      ((DatabaseConnector.reconnectFrom envs k (r + 1) s1).1,
       (DatabaseConnector.reconnectFrom envs k (r + 1) s1).2.1,
       min (DatabaseConnector.retry_delay * 2 ^ r) DatabaseConnector.max_retry_delay ::
         (DatabaseConnector.reconnectFrom envs k (r + 1) s1).2.2) := by
  simp only [DatabaseConnector.reconnectFrom]
  rw [h]

/-- Full behaviour of the retry loop of `reconnect_with_backoff`, for `k`
remaining retries starting at 0-indexed retry number `r`: the recorded
delay of the `i`-th sleep is `min(retry_delay * 2^(r+i), max_retry_delay)`;
the loop succeeds exactly when one of the `k` connect attempts would
succeed; it stops at the first success, attempting every retry otherwise;
and on success an established connection is adopted. -/
lemma reconnectFrom_spec (envs : Nat → List ConnectAttemptResult) :
    ∀ (k r : Nat) (s : DBState),
      (DatabaseConnector.reconnectFrom envs k r s).2.2.length ≤ k ∧
      ((DatabaseConnector.reconnectFrom envs k r s).1 = false →
        (DatabaseConnector.reconnectFrom envs k r s).2.2.length = k) ∧
      (∀ i, i < (DatabaseConnector.reconnectFrom envs k r s).2.2.length →
        (DatabaseConnector.reconnectFrom envs k r s).2.2.getD i 0 =
          min (DatabaseConnector.retry_delay * 2 ^ (r + i))
            DatabaseConnector.max_retry_delay) ∧
      ((DatabaseConnector.reconnectFrom envs k r s).1 = true ↔
        ∃ j, j < k ∧ ConnectAttemptResult.ok ∈ envs (r + j)) ∧
      ((DatabaseConnector.reconnectFrom envs k r s).1 = true →
        1 ≤ (DatabaseConnector.reconnectFrom envs k r s).2.2.length ∧
        ConnectAttemptResult.ok ∈
          envs (r + ((DatabaseConnector.reconnectFrom envs k r s).2.2.length - 1)) ∧
        (∀ j, j < (DatabaseConnector.reconnectFrom envs k r s).2.2.length - 1 →
          ConnectAttemptResult.ok ∉ envs (r + j)) ∧
        (DatabaseConnector.reconnectFrom envs k r s).2.1.connection.isSome = true) := by
  intro k
  induction k with
  | zero =>
      intro r s
      refine ⟨by simp [DatabaseConnector.reconnectFrom], ?_, ?_, ?_, ?_⟩ <;>
        simp [DatabaseConnector.reconnectFrom]
  | succ k ih =>
      intro r s
      rcases hc : DatabaseConnector.connect (envs r) s with ⟨b, s1, m⟩
      cases b with
      | true =>
          have hok : ConnectAttemptResult.ok ∈ envs r := by
            have := connect_fst_iff (envs r) s
            rw [hc] at this
            exact this.mp rfl
          have hconn : s1.connection.isSome = true := by
            have h0 := connect_true_state (envs r) s (by rw [hc])
            rw [hc] at h0
            simp only [Option.isSome]
            rw [h0.2.2.2.2]
          rw [reconnectFrom_succ_of_true envs k r s s1 m hc]
          dsimp only
          refine ⟨by simp, by simp, ?_, ?_, ?_⟩
          · intro i hi
            simp only [List.length_singleton] at hi
            interval_cases i
            simp
          · constructor
            · intro _; exact ⟨0, by omega, by simpa using hok⟩
            · intro _; rfl
          · intro _
            refine ⟨by simp, by simpa using hok, by simp, hconn⟩
      | false =>
          have hnot : ConnectAttemptResult.ok ∉ envs r := by
            have h0 := connect_fst_iff (envs r) s
            rw [hc] at h0
            intro hmem
            exact absurd (h0.mpr hmem) (by simp)
          rw [reconnectFrom_succ_of_false envs k r s s1 m hc]
          dsimp only
          obtain ⟨ih1, ih2, ih3, ih4, ih5⟩ := ih (r + 1) s1
          refine ⟨by simpa using ih1, ?_, ?_, ?_, ?_⟩
          · intro hf
            simp only [List.length_cons]
            rw [ih2 hf]
          · intro i hi
            cases i with
            | zero => simp
            | succ i2 =>
                simp only [List.getD_cons_succ]
                have : r + 1 + i2 = r + (i2 + 1) := by omega
                rw [← this]
                exact ih3 i2 (by simpa using hi)
          · constructor
            · intro ht
              obtain ⟨j, hj, hjm⟩ := ih4.mp ht
              exact ⟨j + 1, by omega, by rwa [show r + (j + 1) = r + 1 + j by omega]⟩
            · rintro ⟨j, hj, hjm⟩
              cases j with
              | zero => exact absurd (by simpa using hjm) hnot
              | succ j2 =>
                  exact ih4.mpr ⟨j2, by omega,
                    by rwa [show r + 1 + j2 = r + (j2 + 1) by omega]⟩
          · intro ht
            obtain ⟨g1, g2, g3, g4⟩ := ih5 ht
            refine ⟨by simp, ?_, ?_, g4⟩
            · simp only [List.length_cons]
              have hlen : (DatabaseConnector.reconnectFrom envs k (r + 1) s1).2.2.length + 1 - 1
                  = ((DatabaseConnector.reconnectFrom envs k (r + 1) s1).2.2.length - 1) + 1 := by
                omega
              rw [hlen, show r + (((DatabaseConnector.reconnectFrom envs k (r + 1) s1).2.2.length - 1) + 1) = r + 1 + ((DatabaseConnector.reconnectFrom envs k (r + 1) s1).2.2.length - 1) by omega]
              exact g2
            · intro j hj
              simp only [List.length_cons] at hj
              cases j with
              | zero => simpa using hnot
              | succ j2 =>
                  rw [show r + (j2 + 1) = r + 1 + j2 by omega]
                  exact g3 j2 (by omega)

/-- Resource invariant of a `DatabaseConnector` state: every recorded handle
id is fresh-bounded by `nextId`, and the handles that were opened and
neither closed nor dropped are exactly the connector's current connection. -/
def DBInv (s : DBState) : Prop :=
  (∀ x ∈ s.openedNotClosed, x < s.nextId) ∧
  (∀ x ∈ s.discarded, x < s.nextId) ∧
  (∀ x, (x ∈ s.openedNotClosed ∧ x ∉ s.discarded) ↔ s.connection = some x)

/-- The fresh connector satisfies the resource invariant. -/
lemma dbInv_init : DBInv dbInit := by
  refine ⟨?_, ?_, ?_⟩ <;> simp [dbInit, DBInv]

/-- Opening a fresh handle (and implicitly dropping any previous one)
preserves the resource invariant. -/
lemma dbInv_openStep (s : DBState) (h : DBInv s) :
    DBInv (DatabaseConnector.openStep s) := by
  obtain ⟨h1, h2, h3⟩ := h
  have hfd : s.nextId ∉ s.discarded := fun hm => absurd (h2 _ hm) (lt_irrefl _)
  cases hc : s.connection with
  | none =>
      have h3n : ∀ x, ¬(x ∈ s.openedNotClosed ∧ x ∉ s.discarded) := by
        intro x hx
        have h0 := (h3 x).mp hx
        rw [hc] at h0
        exact Option.noConfusion h0
      refine ⟨?_, ?_, ?_⟩
      · intro x hx
        simp only [DatabaseConnector.openStep, hc, Finset.mem_insert] at hx ⊢
        rcases hx with rfl | hx
        · omega
        · have := h1 x hx; omega
      · intro x hx
        simp only [DatabaseConnector.openStep, hc] at hx ⊢
        have := h2 x hx; omega
      · intro x
        simp only [DatabaseConnector.openStep, hc, Finset.mem_insert]
        constructor
        · rintro ⟨rfl | hmem, hnd⟩
          · rfl
          · exact absurd ⟨hmem, hnd⟩ (h3n x)
        · rintro hx
          injection hx with hx
          subst hx
          exact ⟨Or.inl rfl, hfd⟩
  | some c =>
      have hcb : c ∈ s.openedNotClosed ∧ c ∉ s.discarded := (h3 c).mpr hc
      have hclt : c < s.nextId := h1 c hcb.1
      refine ⟨?_, ?_, ?_⟩
      · intro x hx
        simp only [DatabaseConnector.openStep, hc, Finset.mem_insert] at hx ⊢
        rcases hx with rfl | hx
        · omega
        · have := h1 x hx; omega
      · intro x hx
        simp only [DatabaseConnector.openStep, hc, Finset.mem_insert] at hx ⊢
        rcases hx with rfl | hx
        · omega
        · have := h2 x hx; omega
      · intro x
        have h3x := h3 x
        rw [hc] at h3x
        simp only [DatabaseConnector.openStep, hc, Finset.mem_insert]
        constructor
        · rintro ⟨rfl | hmem, hnd⟩
          · rfl
          · have hxc : ¬(x = c ∨ x ∈ s.discarded) := hnd
            push_neg at hxc
            have h0 := h3x.mp ⟨hmem, hxc.2⟩
            injection h0 with h0
            exact absurd h0.symm hxc.1
        · rintro hx
          injection hx with hx
          subst hx
          refine ⟨Or.inl rfl, ?_⟩
          push_neg
          exact ⟨by omega, hfd⟩

/-- Closing the current connection preserves the resource invariant. -/
lemma dbInv_closeConn (s : DBState) (c : Nat) (hc : s.connection = some c)
    (h : DBInv s) :
    DBInv { s with connection := none
                   openedNotClosed := s.openedNotClosed.erase c } := by
  obtain ⟨h1, h2, h3⟩ := h
  refine ⟨?_, ?_, ?_⟩
  · intro x hx
    simp only [Finset.mem_erase] at hx
    exact h1 x hx.2
  · intro x hx
    exact h2 x hx
  · intro x
    simp only [Finset.mem_erase]
    constructor
    · rintro ⟨⟨hxc, hmem⟩, hnd⟩
      have h0 := (h3 x).mp ⟨hmem, hnd⟩
      rw [hc] at h0
      injection h0 with h0
      exact absurd h0.symm hxc
    · rintro h0
      exact Option.noConfusion h0

/-- Dropping the current connection without closing it (the
`insert_question` error branch) preserves the resource invariant. -/
lemma dbInv_dropConn (s : DBState) (c : Nat) (hc : s.connection = some c)
    (h : DBInv s) :
    DBInv { s with connection := none, discarded := insert c s.discarded } := by
  obtain ⟨h1, h2, h3⟩ := h
  have hcb : c ∈ s.openedNotClosed ∧ c ∉ s.discarded := (h3 c).mpr hc
  have hclt : c < s.nextId := h1 c hcb.1
  refine ⟨?_, ?_, ?_⟩
  · intro x hx
    exact h1 x hx
  · intro x hx
    simp only [Finset.mem_insert] at hx
    rcases hx with rfl | hx
    · exact hclt
    · exact h2 x hx
  · intro x
    simp only [Finset.mem_insert]
    constructor
    · rintro ⟨hmem, hnd⟩
      push_neg at hnd
      have h0 := (h3 x).mp ⟨hmem, hnd.2⟩
      rw [hc] at h0
      injection h0 with h0
      exact absurd h0.symm hnd.1
    · rintro h0
      exact Option.noConfusion h0

/-- One endpoint attempt preserves the resource invariant. -/
lemma dbInv_connectAttempt (r : ConnectAttemptResult) (s : DBState)
    (h : DBInv s) : DBInv (DatabaseConnector.connectAttempt r s).2 := by
  cases r with
  | ok => exact dbInv_openStep s h
  | probeError =>
      exact dbInv_closeConn (DatabaseConnector.openStep s) s.nextId rfl
        (dbInv_openStep s h)
  | connError =>
      cases hc : s.connection with
      | none => simp only [DatabaseConnector.connectAttempt, hc]; exact h
      | some c =>
          simp only [DatabaseConnector.connectAttempt, hc]
          exact dbInv_closeConn s c hc h

/-- `connect` preserves the resource invariant. -/
lemma dbInv_connect (env : List ConnectAttemptResult) : ∀ s : DBState,
    DBInv s → DBInv (DatabaseConnector.connect env s).2.1 := by
  induction env with
  | nil => intro s h; exact h
  | cons r rest ih =>
      intro s h
      rcases ha : DatabaseConnector.connectAttempt r s with ⟨b, s1⟩
      have hs1 : DBInv s1 := by
        have h0 := dbInv_connectAttempt r s h
        rw [ha] at h0
        exact h0
      cases b with
      | true => rw [connect_cons_of_true r rest s s1 ha]; exact hs1
      | false =>
          rw [connect_cons_of_false r rest s s1 ha]
          exact ih s1 hs1

/-- `insert_question` preserves the resource invariant. -/
lemma dbInv_insert (o : InsertOutcome) (s : DBState) (h : DBInv s) :
    DBInv (DatabaseConnector.insert_question o s).2.1 := by
  cases hc : s.connection with
  | none => simp only [DatabaseConnector.insert_question, hc]; exact h
  | some c =>
      cases o with
      | success i => simp only [DatabaseConnector.insert_question, hc]; exact h
      | dbError =>
          simp only [DatabaseConnector.insert_question, hc]
          exact dbInv_dropConn s c hc h

/-- `close` preserves the resource invariant. -/
lemma dbInv_close (s : DBState) (h : DBInv s) :
    DBInv (DatabaseConnector.close s) := by
  cases hc : s.connection with
  | none => simp only [DatabaseConnector.close, hc]; exact h
  | some c =>
      simp only [DatabaseConnector.close, hc]
      exact dbInv_closeConn s c hc h

/-- Every connector operation preserves the resource invariant. -/
lemma dbInv_runOp (op : DBOp) (s : DBState) (h : DBInv s) :
    DBInv (runOp op s) := by
  cases op with
  | connectOp env => exact dbInv_connect env s h
  | insertOp o => exact dbInv_insert o s h
  | closeOp => exact dbInv_close s h

/-- Every sequence of connector operations preserves the resource
invariant. -/
lemma dbInv_runOps (ops : List DBOp) : ∀ s : DBState,
    DBInv s → DBInv (runOps ops s) := by
  induction ops with
  | nil => intro s h; exact h
  | cons op rest ih => intro s h; exact ih (runOp op s) (dbInv_runOp op s h)

/-- Pointwise invariant, summed up as a set identity: the opened, neither
closed nor dropped handles are exactly the current connection. -/
lemma dbInv_sdiff (s : DBState) (h : DBInv s) :
    s.openedNotClosed \ s.discarded = s.connection.elim ∅ (fun c => {c}) := by
  obtain ⟨h1, h2, h3⟩ := h
  cases hc : s.connection with
  | none =>
      ext x
      have h3x := h3 x
      rw [hc] at h3x
      simp only [Finset.mem_sdiff, Finset.not_mem_empty, Option.elim, iff_false]
      intro hx
      exact Option.noConfusion (h3x.mp hx)
  | some c =>
      ext x
      have h3x := h3 x
      rw [hc] at h3x
      simp only [Finset.mem_sdiff, Option.elim, Finset.mem_singleton]
      constructor
      · intro hx
        have h0 := h3x.mp hx
        injection h0 with h0
        exact h0.symm
      · rintro rfl
        exact h3x.mpr rfl

/-- One complete pipeline run changes no stats field other than the insert
counters, and increments exactly one of `successful_inserts` and
`failed_inserts`, by exactly one. -/
lemma insert_retry_outcome (env : PipelineEnv) (q : String) (s : SvcState) :
    ((ClipboardService.insert_question_with_retry env q s).1.stats.captures
        = s.stats.captures ∧
      (ClipboardService.insert_question_with_retry env q s).1.stats.restart_count
        = s.stats.restart_count ∧
      (ClipboardService.insert_question_with_retry env q s).1.stats.start_time
        = s.stats.start_time) ∧
    (((ClipboardService.insert_question_with_retry env q s).1.stats.successful_inserts
        = s.stats.successful_inserts + 1 ∧
      (ClipboardService.insert_question_with_retry env q s).1.stats.failed_inserts
        = s.stats.failed_inserts) ∨
     ((ClipboardService.insert_question_with_retry env q s).1.stats.successful_inserts
        = s.stats.successful_inserts ∧
      (ClipboardService.insert_question_with_retry env q s).1.stats.failed_inserts
        = s.stats.failed_inserts + 1)) := by
  dsimp only [ClipboardService.insert_question_with_retry]
  rcases h1 : DatabaseConnector.insert_question env.firstInsert s.db with ⟨qid, db1, a1⟩
  dsimp only
  cases hq : intTruthy qid with
  | true =>
      simp only [hq, if_true]
      simp
  | false =>
      simp only [hq, Bool.false_eq_true, if_false]
      rcases h2 : DatabaseConnector.reconnect_with_backoff env.reconnectEnvs db1
        with ⟨ok1, db2, ds⟩
      dsimp only
      cases ok1 with
      | false =>
          simp only [Bool.false_eq_true, if_false]
          simp
      | true =>
          simp only [if_true]
          rcases h3 : DatabaseConnector.insert_question env.secondInsert db2
            with ⟨qid2, db3, a2⟩
          dsimp only
          cases hq2 : intTruthy qid2 with
          | true =>
              simp only [hq2, if_true]
              simp
          | false =>
              simp only [hq2, Bool.false_eq_true, if_false]
              simp

/-- An INSERT raising `psycopg2.Error` yields a falsy `question_id`,
whatever the connection state. -/
lemma first_dbError_falsy (db : DBState) :
    intTruthy (DatabaseConnector.insert_question InsertOutcome.dbError db).1 = false := by
  cases hc : db.connection with
  | none => simp [DatabaseConnector.insert_question, hc, intTruthy]
  | some c => simp [DatabaseConnector.insert_question, hc, intTruthy]

/-- When the first INSERT outcome is falsy and every reconnect retry would
fail, the pipeline counts the event as exactly one failed insert. -/
lemma insert_retry_falsy_reconnect_fail (env : PipelineEnv) (q : String) (s : SvcState)
    (hft : intTruthy (DatabaseConnector.insert_question env.firstInsert s.db).1 = false)
    (hrf : ∀ r, r < DatabaseConnector.max_retries →
      ConnectAttemptResult.ok ∉ env.reconnectEnvs r) :
    (ClipboardService.insert_question_with_retry env q s).1.stats.failed_inserts
      = s.stats.failed_inserts + 1 ∧
    (ClipboardService.insert_question_with_retry env q s).1.stats.successful_inserts
      = s.stats.successful_inserts := by
  dsimp only [ClipboardService.insert_question_with_retry]
  rcases h1 : DatabaseConnector.insert_question env.firstInsert s.db with ⟨qid, db1, a1⟩
  rw [h1] at hft
  dsimp only at hft ⊢
  simp only [hft, Bool.false_eq_true, if_false]
  have hrc : (DatabaseConnector.reconnect_with_backoff env.reconnectEnvs db1).1 = false := by
    have hspec := (reconnectFrom_spec env.reconnectEnvs DatabaseConnector.max_retries 0 db1).2.2.2.1
    rcases hb : (DatabaseConnector.reconnect_with_backoff env.reconnectEnvs db1).1 with _ | _
    · rfl
    · exfalso
      have hb2 : (DatabaseConnector.reconnectFrom env.reconnectEnvs
          DatabaseConnector.max_retries 0 db1).1 = true := hb
      obtain ⟨j, hj, hjm⟩ := hspec.mp hb2
      exact hrf j hj (by simpa using hjm)
  rcases h2 : DatabaseConnector.reconnect_with_backoff env.reconnectEnvs db1
    with ⟨ok1, db2, ds⟩
  rw [h2] at hrc
  dsimp only at hrc
  subst hrc
  simp only [Bool.false_eq_true, if_false]
  simp

/-- When the first INSERT outcome is falsy, some reconnect retry succeeds
and the retried INSERT returns a truthy id, the pipeline counts the event
as exactly one successful insert (not two). -/
lemma insert_retry_falsy_retry_success (env : PipelineEnv) (q : String) (s : SvcState)
    (k : Int)
    (hft : intTruthy (DatabaseConnector.insert_question env.firstInsert s.db).1 = false)
    (hr : ∃ j, j < DatabaseConnector.max_retries ∧
      ConnectAttemptResult.ok ∈ env.reconnectEnvs j)
    (hsecond : env.secondInsert = InsertOutcome.success k) (hk : k ≠ 0) :
    (ClipboardService.insert_question_with_retry env q s).1.stats.successful_inserts
      = s.stats.successful_inserts + 1 ∧
    (ClipboardService.insert_question_with_retry env q s).1.stats.failed_inserts
      = s.stats.failed_inserts := by
  dsimp only [ClipboardService.insert_question_with_retry]
  rcases h1 : DatabaseConnector.insert_question env.firstInsert s.db with ⟨qid, db1, a1⟩
  rw [h1] at hft
  dsimp only at hft ⊢
  simp only [hft, Bool.false_eq_true, if_false]
  obtain ⟨j, hj, hjm⟩ := hr
  have hspec := reconnectFrom_spec env.reconnectEnvs DatabaseConnector.max_retries 0 db1
  have hrc : (DatabaseConnector.reconnect_with_backoff env.reconnectEnvs db1).1 = true :=
    hspec.2.2.2.1.mpr ⟨j, hj, by simpa using hjm⟩
  have hcsome : (DatabaseConnector.reconnect_with_backoff
      env.reconnectEnvs db1).2.1.connection.isSome = true :=
    (hspec.2.2.2.2 hrc).2.2.2
  rcases h2 : DatabaseConnector.reconnect_with_backoff env.reconnectEnvs db1
    with ⟨ok1, db2, ds⟩
  rw [h2] at hrc hcsome
  dsimp only at hrc hcsome
  subst hrc
  simp only [if_true]
  obtain ⟨c2, hc2⟩ := Option.isSome_iff_exists.mp hcsome
  have hins2 : DatabaseConnector.insert_question env.secondInsert db2
      = (some k, db2, 1) := by
    rw [hsecond]
    simp only [DatabaseConnector.insert_question, hc2]
  rw [hins2]
  dsimp only
  have htr : intTruthy (some k) = true := by simp [intTruthy, hk]
  simp only [htr, if_true]
  simp

/-- Growing the restart delay keeps it in `[5, 60]` and never decreases it. -/
lemma growRestartDelay_bounds (d : ℚ) (h5 : 5 ≤ d) (h60 : d ≤ 60) :
    5 ≤ growRestartDelay d ∧ growRestartDelay d ≤ 60 ∧ d ≤ growRestartDelay d := by
  unfold growRestartDelay max_restart_delay
  refine ⟨le_min (by nlinarith) (by norm_num), min_le_right _ _,
    le_min (by nlinarith) h60⟩

/-- One guardian iteration: every slept delay lies in `[5, 60]` and the
next-iteration delay again lies in `[5, 60]`. -/
lemma guardianIter_spec (o : ServiceRun) (g : GuardianState)
    (h5 : 5 ≤ g.restart_delay) (h60 : g.restart_delay ≤ 60) :
    (∀ d ∈ (guardianIter o g).2, 5 ≤ d ∧ d ≤ 60) ∧
    5 ≤ (guardianIter o g).1.restart_delay ∧
    (guardianIter o g).1.restart_delay ≤ 60 := by
  cases o with
  | startFail =>
      obtain ⟨g1, g2, _⟩ := growRestartDelay_bounds g.restart_delay h5 h60
      refine ⟨?_, g1, g2⟩
      intro d hd
      simp only [guardianIter, List.mem_singleton] at hd
      subst hd
      exact ⟨h5, h60⟩
  | abnormal =>
      obtain ⟨g1, g2, _⟩ := growRestartDelay_bounds 5 (le_refl 5) (by norm_num)
      refine ⟨?_, g1, g2⟩
      intro d hd
      simp only [guardianIter, List.mem_singleton] at hd
      subst hd
      norm_num
  | graceful =>
      refine ⟨?_, le_refl 5, by norm_num [guardianIter]⟩
      intro d hd
      simp [guardianIter] at hd

/-- Along any guardian run starting with delay in `[5, 60]`, every slept
restart delay lies in `[5, 60]`. -/
lemma guardianRun_sleeps_bounded (os : List ServiceRun) : ∀ g : GuardianState,
    5 ≤ g.restart_delay → g.restart_delay ≤ 60 →
    ∀ d ∈ (guardianRun os g).2, 5 ≤ d ∧ d ≤ 60 := by
  induction os with
  | nil =>
      intro g _ _ d hd
      simp [guardianRun] at hd
  | cons o rest ih =>
      intro g h5 h60 d hd
      by_cases hr : g.should_run = true
      · rcases hgi : guardianIter o g with ⟨g1, ds⟩
        have hspec := guardianIter_spec o g h5 h60
        rw [hgi] at hspec
        dsimp only at hspec
        simp only [guardianRun, hr, if_true, hgi, List.mem_append] at hd
        rcases hd with hd | hd
        · exact hspec.1 d hd
        · exact ih g1 hspec.2.1 hspec.2.2 d hd
      · simp only [guardianRun, hr, Bool.false_eq_true, if_false] at hd
        simp at hd

/-- Claim C3: `reconnect_with_backoff` repeats `connect()` up to
`max_retries = 5` times, the delay slept before the 0-indexed attempt `i`
is `min(retry_delay * 2^i, max_retry_delay)` (so every delay is capped at
30); it returns success exactly when one of the 5 connect attempts
succeeds, stopping at the first success, and returns failure exactly when
all 5 connect attempts fail. -/
theorem C3_reconnect_backoff_spec (envs : Nat → List ConnectAttemptResult)
    (s : DBState) :
    (DatabaseConnector.reconnect_with_backoff envs s).2.2.length ≤ 5 ∧
    (∀ i, i < (DatabaseConnector.reconnect_with_backoff envs s).2.2.length →
      (DatabaseConnector.reconnect_with_backoff envs s).2.2.getD i 0
        = min (DatabaseConnector.retry_delay * 2 ^ i)
            DatabaseConnector.max_retry_delay ∧
      (DatabaseConnector.reconnect_with_backoff envs s).2.2.getD i 0 ≤ 30) ∧
    ((DatabaseConnector.reconnect_with_backoff envs s).1 = true ↔
      ∃ r, r < 5 ∧ ConnectAttemptResult.ok ∈ envs r) ∧
    ((DatabaseConnector.reconnect_with_backoff envs s).1 = false →
      (DatabaseConnector.reconnect_with_backoff envs s).2.2.length = 5 ∧
      ∀ r, r < 5 → ConnectAttemptResult.ok ∉ envs r) ∧
    ((DatabaseConnector.reconnect_with_backoff envs s).1 = true →
      1 ≤ (DatabaseConnector.reconnect_with_backoff envs s).2.2.length ∧
      ConnectAttemptResult.ok ∈
        envs ((DatabaseConnector.reconnect_with_backoff envs s).2.2.length - 1) ∧
      ∀ j, j < (DatabaseConnector.reconnect_with_backoff envs s).2.2.length - 1 →
        ConnectAttemptResult.ok ∉ envs j) := by
  obtain ⟨h1, h2, h3, h4, h5⟩ :=
    reconnectFrom_spec envs DatabaseConnector.max_retries 0 s
  refine ⟨h1, ?_, ?_, ?_, ?_⟩
  · intro i hi
    constructor
    · have h0 := h3 i hi
      simpa using h0
    · rw [show (DatabaseConnector.reconnect_with_backoff envs s).2.2.getD i 0
          = min (DatabaseConnector.retry_delay * 2 ^ i)
              DatabaseConnector.max_retry_delay from by simpa using h3 i hi]
      exact min_le_right _ _
  · constructor
    · intro ht
      obtain ⟨j, hj, hjm⟩ := h4.mp ht
      exact ⟨j, hj, by simpa using hjm⟩
    · rintro ⟨r, hr, hmem⟩
      exact h4.mpr ⟨r, hr, by simpa using hmem⟩
  · intro hf
    refine ⟨h2 hf, ?_⟩
    intro r hr hmem
    have ht : (DatabaseConnector.reconnect_with_backoff envs s).1 = true :=
      h4.mpr ⟨r, hr, by simpa using hmem⟩
    rw [hf] at ht
    exact Bool.noConfusion ht
  · intro ht
    obtain ⟨g1, g2, g3, _⟩ := h5 ht
    exact ⟨g1, by simpa using g2, fun j hj => by simpa using g3 j hj⟩

/-- Claim C3 witness: with both endpoints unreachable on every retry the
loop fails after exactly 5 slept attempts, the 0-indexed attempt 2 sleeps
`min(1 * 2^2, 30) = 4 ≤ 30`; with a reachable endpoint at least one
attempt is made and the loop succeeds. -/
theorem C3_reconnect_backoff_spec_witness :
    (DatabaseConnector.reconnect_with_backoff
        (fun _ => [ConnectAttemptResult.connError, ConnectAttemptResult.connError])
        dbInit).2.2.length = 5 ∧
    (DatabaseConnector.reconnect_with_backoff
        (fun _ => [ConnectAttemptResult.connError, ConnectAttemptResult.connError])
        dbInit).2.2.getD 2 0
      = min (DatabaseConnector.retry_delay * 2 ^ 2)
          DatabaseConnector.max_retry_delay ∧
    (DatabaseConnector.reconnect_with_backoff
        (fun _ => [ConnectAttemptResult.connError, ConnectAttemptResult.connError])
        dbInit).2.2.getD 2 0 ≤ 30 ∧
    1 ≤ (DatabaseConnector.reconnect_with_backoff
        (fun _ => [ConnectAttemptResult.ok, ConnectAttemptResult.ok])
        dbInit).2.2.length := by
  have h := C3_reconnect_backoff_spec
    (fun _ => [ConnectAttemptResult.connError, ConnectAttemptResult.connError]) dbInit
  have h2 := C3_reconnect_backoff_spec
    (fun _ => [ConnectAttemptResult.ok, ConnectAttemptResult.ok]) dbInit
  exact ⟨(h.2.2.2.1 (by decide)).1, (h.2.1 2 (by decide)).1,
    (h.2.1 2 (by decide)).2, (h2.2.2.2.2 (by decide)).1⟩

/-- Claim C4: `connect` iterates the ordered endpoint list exactly once,
succeeds exactly when some endpoint fully succeeds, stopping at and
adopting the connection of the first such endpoint; on failure every
endpoint was attempted and no established connection remains; and a failed
endpoint attempt closes any partially-opened connection before the next
endpoint is tried. -/
theorem C4_connect_fallback_spec (env : List ConnectAttemptResult)
    (s : DBState) (hne : env ≠ []) :
    ((DatabaseConnector.connect env s).1 = true ↔ ConnectAttemptResult.ok ∈ env) ∧
    ((DatabaseConnector.connect env s).1 = false →
      (DatabaseConnector.connect env s).2.1.connection = none ∧
      (DatabaseConnector.connect env s).2.2 = env.length) ∧
    ((DatabaseConnector.connect env s).1 = true →
      1 ≤ (DatabaseConnector.connect env s).2.2 ∧
      (DatabaseConnector.connect env s).2.2 ≤ env.length ∧
      env.getD ((DatabaseConnector.connect env s).2.2 - 1)
          ConnectAttemptResult.connError = ConnectAttemptResult.ok ∧
      (∀ j, j < (DatabaseConnector.connect env s).2.2 - 1 →
        env.getD j ConnectAttemptResult.connError ≠ ConnectAttemptResult.ok) ∧
      (DatabaseConnector.connect env s).2.1.connection
        = some ((DatabaseConnector.connect env s).2.1.nextId - 1)) ∧
    (∀ (r : ConnectAttemptResult) (t : DBState),
      (DatabaseConnector.connectAttempt r t).1 = false →
      (DatabaseConnector.connectAttempt r t).2.connection = none ∧
      (DatabaseConnector.connectAttempt r t).2.openedNotClosed ⊆ t.openedNotClosed) := by
  refine ⟨connect_fst_iff env s, ?_, connect_true_state env s, ?_⟩
  · intro hf
    obtain ⟨k1, _, k3⟩ := connect_false_state env s hf
    exact ⟨k3 hne, k1⟩
  · intro r t hf
    exact ⟨connectAttempt_fail_conn r t hf, connectAttempt_fail_subset r t hf⟩

/-- Claim C4 witness: with an unreachable primary and reachable fallback,
`connect` succeeds and adopts the fallback's connection after attempting
both endpoints; with both endpoints unreachable it fails with no
established connection left. -/
theorem C4_connect_fallback_spec_witness :
    (DatabaseConnector.connect
        [ConnectAttemptResult.connError, ConnectAttemptResult.ok] dbInit).1 = true ∧
    (DatabaseConnector.connect
        [ConnectAttemptResult.connError, ConnectAttemptResult.ok] dbInit).2.1.connection
      = some ((DatabaseConnector.connect
          [ConnectAttemptResult.connError, ConnectAttemptResult.ok] dbInit).2.1.nextId - 1) ∧
    (DatabaseConnector.connect
        [ConnectAttemptResult.connError, ConnectAttemptResult.connError]
        dbInit).2.1.connection = none ∧
    (DatabaseConnector.connect
        [ConnectAttemptResult.connError, ConnectAttemptResult.connError]
        dbInit).2.2 = 2 := by
  have h := C4_connect_fallback_spec
    [ConnectAttemptResult.connError, ConnectAttemptResult.ok] dbInit (by decide)
  have h2 := C4_connect_fallback_spec
    [ConnectAttemptResult.connError, ConnectAttemptResult.connError] dbInit (by decide)
  have ht := h.1.mpr (by decide)
  exact ⟨ht, (h.2.2.1 ht).2.2.2.2, (h2.2.1 (by decide)).1, (h2.2.1 (by decide)).2⟩

/-- Claim C5: `insert_question` returns no identifier when no connection is
established (leaving the state untouched and performing no store-level
attempt); on a store-level error it returns no identifier and transitions
the connection to absent, so a following insert without an intervening
successful connect also returns no identifier; and one call performs at
most one store-level INSERT attempt (it never retries). -/
theorem C5_insert_contract (o o2 : InsertOutcome) (s : DBState) (c : Nat) :
    (s.connection = none →
      DatabaseConnector.insert_question o s = (none, s, 0)) ∧
    (s.connection = some c →
      (DatabaseConnector.insert_question InsertOutcome.dbError s).1 = none ∧
      (DatabaseConnector.insert_question InsertOutcome.dbError s).2.1.connection
        = none ∧
      (DatabaseConnector.insert_question o2
        (DatabaseConnector.insert_question InsertOutcome.dbError s).2.1).1 = none) ∧
    (DatabaseConnector.insert_question o s).2.2 ≤ 1 := by
  refine ⟨?_, ?_, ?_⟩
  · intro h
    simp [DatabaseConnector.insert_question, h]
  · intro h
    refine ⟨?_, ?_, ?_⟩ <;>
      simp [DatabaseConnector.insert_question, h]
  · cases hc : s.connection with
    | none => simp [DatabaseConnector.insert_question, hc]
    | some c2 =>
        cases o with
        | success i => simp [DatabaseConnector.insert_question, hc]
        | dbError => simp [DatabaseConnector.insert_question, hc]

/-- Claim C5 witness: concrete instances of the contract at a fresh
connector (no connection) and a connector holding handle 0. -/
theorem C5_insert_contract_witness :
    DatabaseConnector.insert_question InsertOutcome.dbError dbInit
      = (none, dbInit, 0) ∧
    (DatabaseConnector.insert_question InsertOutcome.dbError
      (DatabaseConnector.openStep dbInit)).1 = none ∧
    (DatabaseConnector.insert_question (InsertOutcome.success 7)
      (DatabaseConnector.insert_question InsertOutcome.dbError
        (DatabaseConnector.openStep dbInit)).2.1).1 = none ∧
    (DatabaseConnector.insert_question (InsertOutcome.success 7)
      (DatabaseConnector.openStep dbInit)).2.2 ≤ 1 := by
  have h1 := C5_insert_contract InsertOutcome.dbError (InsertOutcome.success 7) dbInit 0
  have h2 := C5_insert_contract InsertOutcome.dbError (InsertOutcome.success 7)
    (DatabaseConnector.openStep dbInit) 0
  have h3 := C5_insert_contract (InsertOutcome.success 7) (InsertOutcome.success 7)
    (DatabaseConnector.openStep dbInit) 0
  exact ⟨h1.1 rfl, (h2.2.1 rfl).1, (h2.2.1 rfl).2.2, h3.2.2⟩

/-- Claim C1 (evaluation at the failing input): `restart_count` is NOT
preserved across service instances in the Supervisor's restart loop.  Each
loop iteration creates a fresh `ClipboardService` whose stats (line 430
with lines 270-276) reset `restart_count` to 0 before line 451 increments
the count of the instance that just died.  After two consecutive abnormal
service exits the most recent instance's `restart_count` is therefore 1,
where the claim requires it to have been carried forward to 2. -/
theorem C1_restart_count_not_preserved_eval :
    (guardianRun [ServiceRun.abnormal] guardianInit).1.stats.restart_count = 1 ∧
    (guardianRun [ServiceRun.abnormal, ServiceRun.abnormal]
      guardianInit).1.stats.restart_count = 1 := by
  constructor <;> rfl

/-- Claim C2: for every trigger whose captured text is non-empty (with the
service running), one complete pipeline run increments exactly one of
`successful_inserts` / `failed_inserts`, by exactly one, never both and
never neither; in particular a first insert failure followed by a
successful reconnect and a truthy retried insert yields exactly one
`successful_inserts` increment, not two. -/
theorem C2_exactly_one_outcome (paste : Option String) (env : PipelineEnv)
    (s : SvcState) (hrun : s.is_running = true)
    (htext : get_clipboard_text paste ≠ "") :
    (((ClipboardService.on_hotkey_pressed paste env s).1.stats.successful_inserts
        = s.stats.successful_inserts + 1 ∧
      (ClipboardService.on_hotkey_pressed paste env s).1.stats.failed_inserts
        = s.stats.failed_inserts) ∨
     ((ClipboardService.on_hotkey_pressed paste env s).1.stats.successful_inserts
        = s.stats.successful_inserts ∧
      (ClipboardService.on_hotkey_pressed paste env s).1.stats.failed_inserts
        = s.stats.failed_inserts + 1)) ∧
    (∀ k : Int, env.firstInsert = InsertOutcome.dbError →
      (∃ j, j < DatabaseConnector.max_retries ∧
        ConnectAttemptResult.ok ∈ env.reconnectEnvs j) →
      env.secondInsert = InsertOutcome.success k → k ≠ 0 →
      (ClipboardService.on_hotkey_pressed paste env s).1.stats.successful_inserts
        = s.stats.successful_inserts + 1 ∧
      (ClipboardService.on_hotkey_pressed paste env s).1.stats.failed_inserts
        = s.stats.failed_inserts) := by
  have hred : ClipboardService.on_hotkey_pressed paste env s
      = ClipboardService.insert_question_with_retry env (get_clipboard_text paste)
          { s with stats := { s.stats with captures := s.stats.captures + 1 } } := by
    simp [ClipboardService.on_hotkey_pressed, hrun, htext]
  rw [hred]
  constructor
  · exact (insert_retry_outcome env (get_clipboard_text paste)
      { s with stats := { s.stats with captures := s.stats.captures + 1 } }).2
  · intro k h1 h2 h3 hk
    have hft : intTruthy (DatabaseConnector.insert_question env.firstInsert
        ({ s with stats := { s.stats with
          captures := s.stats.captures + 1 } } : SvcState).db).1 = false := by
      rw [h1]
      exact first_dbError_falsy _
    exact insert_retry_falsy_retry_success env (get_clipboard_text paste)
      { s with stats := { s.stats with captures := s.stats.captures + 1 } }
      k hft h2 h3 hk

/-- Claim C2 witness: a running service with no established connection
captures "hello"; the first insert fails, the reconnect succeeds on its
fallback endpoint, the retried insert returns id 1, and exactly
`successful_inserts` is incremented, once. -/
theorem C2_exactly_one_outcome_witness :
    (ClipboardService.on_hotkey_pressed (some "hello")
        ⟨InsertOutcome.dbError,
          fun _ => [ConnectAttemptResult.connError, ConnectAttemptResult.ok],
          InsertOutcome.success 1⟩
        { svcInit with is_running := true }).1.stats.successful_inserts
      = ({ svcInit with is_running := true } : SvcState).stats.successful_inserts + 1 ∧
    (ClipboardService.on_hotkey_pressed (some "hello")
        ⟨InsertOutcome.dbError,
          fun _ => [ConnectAttemptResult.connError, ConnectAttemptResult.ok],
          InsertOutcome.success 1⟩
        { svcInit with is_running := true }).1.stats.failed_inserts
      = ({ svcInit with is_running := true } : SvcState).stats.failed_inserts := by
  have h := C2_exactly_one_outcome (some "hello")
    ⟨InsertOutcome.dbError,
      fun _ => [ConnectAttemptResult.connError, ConnectAttemptResult.ok],
      InsertOutcome.success 1⟩
    { svcInit with is_running := true } rfl (by decide)
  exact h.2 1 rfl ⟨0, by decide, by decide⟩ rfl (by decide)

/-- The `close` method always leaves no established connection. -/
lemma close_connection (t : DBState) :
    (DatabaseConnector.close t).connection = none := by
  cases hc : t.connection with
  | none => simp [DatabaseConnector.close, hc]
  | some c => simp [DatabaseConnector.close, hc]

/-- Claim C6 counterexample: the claim says final stats are emitted exactly
when `stop` is invoked as an explicit graceful stop (`shutdown=True`), but
a graceful stop of a service whose `start_time` was never set emits no
stats (line 377 also requires `self.stats['start_time']` to be truthy). -/
theorem C6_graceful_stop_emits_nothing_cex :
    ¬ ((ClipboardService.stop true svcInit).2 = true) := by decide

/-- Claim C6 (amended): `stop` always unregisters the triggers, closes the
connector and clears `is_running`, leaving the stats untouched; it emits
the final `ServiceStats` exactly when `shutdown` is set AND a start time
has been recorded; `shutdown=True` suppresses restart, while a
non-graceful stop leaves `should_restart` unchanged and emits no stats. -/
theorem C6_stop_amended (s : SvcState) (shutdown : Bool) :
    (ClipboardService.stop shutdown s).1.hotkeysRegistered = false ∧
    (ClipboardService.stop shutdown s).1.db.connection = none ∧
    (ClipboardService.stop shutdown s).1.is_running = false ∧
    (ClipboardService.stop shutdown s).1.stats = s.stats ∧
    (ClipboardService.stop shutdown s).2
      = (shutdown && s.stats.start_time.isSome) ∧
    (shutdown = true → (ClipboardService.stop shutdown s).1.should_restart = false) ∧
    (shutdown = false →
      (ClipboardService.stop shutdown s).1.should_restart = s.should_restart ∧
      (ClipboardService.stop shutdown s).2 = false) := by
  cases shutdown with
  | true =>
      refine ⟨rfl, close_connection _, rfl, rfl, rfl, fun _ => rfl, fun h => ?_⟩
      exact absurd h (by simp)
  | false =>
      refine ⟨rfl, close_connection _, rfl, rfl, rfl, fun h => ?_,
        fun _ => ⟨rfl, rfl⟩⟩
      exact absurd h (by simp)

/-- Claim C6 witness: a graceful stop of a service whose start time is
recorded emits the final stats and suppresses restart; a non-graceful stop
emits nothing. -/
theorem C6_stop_amended_witness :
    (ClipboardService.stop true
        { svcInit with stats := { freshStats with start_time := some 0 } }).2 = true ∧
    (ClipboardService.stop true
        { svcInit with stats := { freshStats with start_time := some 0 } }
      ).1.should_restart = false ∧
    (ClipboardService.stop false svcInit).2 = false := by
  have h := C6_stop_amended
    { svcInit with stats := { freshStats with start_time := some 0 } } true
  have h2 := C6_stop_amended svcInit false
  exact ⟨h.2.2.2.2.1.trans (by decide), h.2.2.2.2.2.1 rfl, (h2.2.2.2.2.2.2 rfl).2⟩

/-- Claim C7: a trigger event arriving while the service is not running, or
whose clipboard read yields empty or whitespace-only text (or fails),
performs no insert and leaves the whole service state — every field of
`ServiceStats` included — unchanged. -/
theorem C7_trigger_guard_noop (paste : Option String) (env : PipelineEnv)
    (s : SvcState)
    (h : s.is_running = false ∨ paste = none ∨
      ∃ t, paste = some t ∧ pyStrip t = "") :
    ClipboardService.on_hotkey_pressed paste env s = (s, 0) := by
  have htext : s.is_running = false ∨ get_clipboard_text paste = "" := by
    rcases h with h | h | ⟨t, ht, htr⟩
    · exact Or.inl h
    · subst h; exact Or.inr rfl
    · subst ht
      right
      simp [get_clipboard_text, htr]
  rcases htext with h0 | h0
  · simp [ClipboardService.on_hotkey_pressed, h0]
  · by_cases hrun : s.is_running = false
    · simp [ClipboardService.on_hotkey_pressed, hrun]
    · have hrun2 : s.is_running = true := by simpa using hrun
      simp [ClipboardService.on_hotkey_pressed, hrun2, h0]

/-- Claim C7 witness: a whitespace-only clipboard read on a running service
and a capture hotkey on a stopped service both change nothing and perform
no insert. -/
theorem C7_trigger_guard_noop_witness :
    ClipboardService.on_hotkey_pressed (some "   ")
        ⟨InsertOutcome.dbError, fun _ => [], InsertOutcome.dbError⟩
        { svcInit with is_running := true }
      = ({ svcInit with is_running := true }, 0) ∧
    ClipboardService.on_hotkey_pressed (some "hello")
        ⟨InsertOutcome.dbError, fun _ => [], InsertOutcome.dbError⟩ svcInit
      = (svcInit, 0) :=
  ⟨C7_trigger_guard_noop (some "   ")
      ⟨InsertOutcome.dbError, fun _ => [], InsertOutcome.dbError⟩
      { svcInit with is_running := true }
      (Or.inr (Or.inr ⟨"   ", rfl, by decide⟩)),
   C7_trigger_guard_noop (some "hello")
      ⟨InsertOutcome.dbError, fun _ => [], InsertOutcome.dbError⟩ svcInit
      (Or.inl rfl)⟩

/-- Claim C8: starting from a restart delay in `[5, 60]` (the guardian
starts at the base value 5), every delay the Supervisor sleeps lies in
`[5, 60]`; after an iteration whose `start()` failed the delay is grown by
the fixed multiplier 1.5 (capped at `max_restart_delay = 60`) and never
decreases; an iteration whose service started successfully sleeps exactly
the base delay 5 (the reset) before growing it; and a graceful iteration
leaves the delay at the base value 5. -/
theorem C8_restart_delay_bounds (os : List ServiceRun) (g : GuardianState)
    (h5 : 5 ≤ g.restart_delay) (h60 : g.restart_delay ≤ 60) :
    (∀ d ∈ (guardianRun os g).2, 5 ≤ d ∧ d ≤ 60) ∧
    (guardianIter ServiceRun.startFail g).1.restart_delay
      = min (g.restart_delay * 1.5) max_restart_delay ∧
    g.restart_delay ≤ (guardianIter ServiceRun.startFail g).1.restart_delay ∧
    (guardianIter ServiceRun.abnormal g).2 = [5] ∧
    (guardianIter ServiceRun.abnormal g).1.restart_delay
      = min ((5 : ℚ) * 1.5) max_restart_delay ∧
    (guardianIter ServiceRun.graceful g).1.restart_delay = 5 := by
  refine ⟨guardianRun_sleeps_bounded os g h5 h60, rfl, ?_, rfl, rfl, rfl⟩
  exact (growRestartDelay_bounds g.restart_delay h5 h60).2.2

/-- Claim C8 witness: a run with two start failures around an abnormal exit
from the initial guardian state keeps every slept delay in `[5, 60]`, and
the one-step growth from the initial delay 5 does not decrease it. -/
theorem C8_restart_delay_bounds_witness :
    (∀ d ∈ (guardianRun [ServiceRun.startFail, ServiceRun.abnormal,
        ServiceRun.startFail] guardianInit).2, 5 ≤ d ∧ d ≤ 60) ∧
    guardianInit.restart_delay
      ≤ (guardianIter ServiceRun.startFail guardianInit).1.restart_delay ∧
    (guardianIter ServiceRun.abnormal guardianInit).2 = [5] := by
  have h := C8_restart_delay_bounds
    [ServiceRun.startFail, ServiceRun.abnormal, ServiceRun.startFail]
    guardianInit (le_refl 5) (by norm_num [guardianInit])
  exact ⟨h.1, h.2.2.1, h.2.2.2.1⟩

/-- Claim C9 counterexample: the set of connections opened by the connector
and not yet closed can reach size two, refuting "at most one" — a
connection invalidated by an insert error (line 233) is dropped without
being closed, and the subsequent reconnect opens a second handle. -/
theorem C9_open_handles_cex :
    ¬ ((runOps [DBOp.connectOp [ConnectAttemptResult.ok, ConnectAttemptResult.ok],
                DBOp.insertOp InsertOutcome.dbError,
                DBOp.connectOp [ConnectAttemptResult.ok, ConnectAttemptResult.ok]]
          dbInit).openedNotClosed.card ≤ 1) := by decide

/-- Claim C9 (amended): along every sequence of connector operations from a
fresh connector, the handles that were opened and neither closed nor
dropped are exactly the connector's current connection — in particular at
most one; only counting dropped-but-unclosed handles (insert errors,
overwritten handles) can the opened-and-not-closed set exceed one. -/
theorem C9_live_connection_at_most_one (ops : List DBOp) :
    (runOps ops dbInit).openedNotClosed \ (runOps ops dbInit).discarded
      = (runOps ops dbInit).connection.elim ∅ (fun c => {c}) ∧
    ((runOps ops dbInit).openedNotClosed \ (runOps ops dbInit).discarded).card
      ≤ 1 := by
  have h := dbInv_runOps ops dbInit dbInv_init
  have heq := dbInv_sdiff _ h
  refine ⟨heq, ?_⟩
  rw [heq]
  rcases hc : (runOps ops dbInit).connection with _ | c
  · simp
  · simp

/-- Claim C10: the pipeline classifies an insert outcome by Python
truthiness of the returned id, not by its presence: an insert that stores a
row and returns the generated identifier 0 is treated as failed — the
pipeline proceeds to reconnect, counts a failed insert when the reconnect
fails, and retries the insert (counting the retry's success) when the
reconnect succeeds. -/
theorem C10_zero_id_treated_as_failure (env : PipelineEnv) (q : String)
    (s : SvcState) (c : Nat) (hc : s.db.connection = some c)
    (hfirst : env.firstInsert = InsertOutcome.success 0) :
    (DatabaseConnector.insert_question env.firstInsert s.db).1 = some 0 ∧
    ((∀ r, r < DatabaseConnector.max_retries →
        ConnectAttemptResult.ok ∉ env.reconnectEnvs r) →
      (ClipboardService.insert_question_with_retry env q s).1.stats.failed_inserts
        = s.stats.failed_inserts + 1 ∧
      (ClipboardService.insert_question_with_retry env q s).1.stats.successful_inserts
        = s.stats.successful_inserts) ∧
    (∀ k : Int, (∃ j, j < DatabaseConnector.max_retries ∧
        ConnectAttemptResult.ok ∈ env.reconnectEnvs j) →
      env.secondInsert = InsertOutcome.success k → k ≠ 0 →
      (ClipboardService.insert_question_with_retry env q s).1.stats.successful_inserts
        = s.stats.successful_inserts + 1) := by
  have hins : DatabaseConnector.insert_question env.firstInsert s.db
      = (some 0, s.db, 1) := by
    rw [hfirst]
    simp [DatabaseConnector.insert_question, hc]
  have hft : intTruthy (DatabaseConnector.insert_question env.firstInsert s.db).1
      = false := by
    rw [hins]
    simp [intTruthy]
  refine ⟨by rw [hins], ?_, ?_⟩
  · intro hrf
    exact insert_retry_falsy_reconnect_fail env q s hft hrf
  · intro k hr hsecond hk
    exact (insert_retry_falsy_retry_success env q s k hft hr hsecond hk).1

/-- Claim C10 witness: with an established connection, a first insert that
returns id 0 and a reconnect whose endpoints all fail, the pipeline counts
one failed insert even though the insert returned an identifier. -/
theorem C10_zero_id_treated_as_failure_witness :
    (DatabaseConnector.insert_question (InsertOutcome.success 0)
      (DatabaseConnector.openStep dbInit)).1 = some 0 ∧
    (ClipboardService.insert_question_with_retry
        ⟨InsertOutcome.success 0,
          fun _ => [ConnectAttemptResult.connError, ConnectAttemptResult.connError],
          InsertOutcome.success 5⟩ "q"
        { svcInit with db := DatabaseConnector.openStep dbInit }).1.stats.failed_inserts
      = ({ svcInit with
          db := DatabaseConnector.openStep dbInit } : SvcState).stats.failed_inserts + 1 := by
  have h := C10_zero_id_treated_as_failure
    ⟨InsertOutcome.success 0,
      fun _ => [ConnectAttemptResult.connError, ConnectAttemptResult.connError],
      InsertOutcome.success 5⟩ "q"
    { svcInit with db := DatabaseConnector.openStep dbInit } 0 rfl rfl
  exact ⟨h.1, (h.2.1 (by decide)).1⟩
